import Mathlib

/-!
# Credential-secret reconciler of the cluster baremetal operator

A shallow embedding of `provisioning/baremetal_secrets.go`.

The Go functions talk to collaborators that live outside the file: the
secret store (`client.Secrets(ns).Get/Create/Update/Delete`), the ownership
binder (`controllerutil.SetControllerReference`), the random password
generator, `bcrypt.GenerateFromPassword`, the TLS certificate generator and
the certificate expiry check.  Each collaborator call is modelled as a step
on an explicit `World` (the persisted store plus the trace of every
collaborator call made so far).  What a collaborator answers is decided by
an `Env` of oracles, indexed by the position of the call in the trace, so
that every theorem quantifies over every behaviour of the collaborators
(injected store failures included).

A Go `error` value is `Option Error` (`none` is `nil`).  A Go string or
byte slice is a `String` / `List Char`, one `Char` per byte.  A Go
`map[string]string` built from a literal is an association list in the
order of the literal.
-/

namespace BaremetalSecrets

/-! ## Data model -/

/-- Reason carried by an API status error (`metav1.StatusReason`). -/
inductive StatusReason where
  | notFound
  | alreadyExists
  | conflict
  | forbidden
  | internalError
  deriving DecidableEq, Repr

/-- Go `error` values that the collaborators and `errors.Wrap` produce: API
status errors, any other leaf error, and an error wrapped by
`errors.Wrap(cause, message)`. -/
inductive Error where
  | status (reason : StatusReason) (message : String)
  | other (message : String)
  | wrap (cause : Error) (message : String)
  deriving DecidableEq, Repr

/-- Model of `utilerrors.Aggregate`: the non-empty list of errors it reports, in
order. -/
structure Aggregate where
  errors : List Error
  deriving DecidableEq, Repr

/-- Model of `metav1.OwnerReference`. -/
structure OwnerReference where
  APIVersion : String
  Kind : String
  Name : String
  UID : String
  Controller : Bool
  BlockOwnerDeletion : Bool
  deriving DecidableEq, Repr

/-- The fields of `corev1.Secret` that the file reads or writes. -/
structure Secret where
  Name : String
  Namespace : String
  OwnerReferences : List OwnerReference
  StringData : List (String × String)
  deriving DecidableEq, Repr

/-- Model of `metal3iov1alpha1.ProvisioningSpec`, the field the file reads. -/
structure ProvisioningSpec where
  ProvisioningIP : String
  deriving DecidableEq, Repr

/-- Model of `metal3iov1alpha1.Provisioning`, with the type and object metadata that
the ownership binder copies into an owner reference. -/
structure Provisioning where
  APIVersion : String
  Kind : String
  Name : String
  UID : String
  Spec : ProvisioningSpec
  deriving DecidableEq, Repr

/-- Model of `TlsCertificate`, the result of `generateTlsCertificate`. -/
structure TlsCertificate where
  privateKey : String
  certificate : String
  deriving DecidableEq, Repr

/-- Model of `ProvisioningInfo`, the field `DeleteAllSecrets` reads besides the client. -/
structure ProvisioningInfo where
  Namespace : String
  deriving DecidableEq, Repr

/-- One call to a collaborator. -/
inductive Event where
  | get (ns name : String)
  | create (ns : String) (secret : Secret)
  | update (ns : String) (secret : Secret)
  | delete (ns name : String)
  | setControllerReference (owner : Provisioning) (object : Secret)
  | generateRandomPassword
  | bcryptGenerateFromPassword (password : String) (cost : Nat)
  | generateTlsCertificate (ip : String)
  | isTlsCertificateExpired (certificate : String)
  deriving DecidableEq, Repr

/-- The persisted secret store and the trace of collaborator calls, oldest
first. -/
structure World where
  store : List Secret
  trace : List Event
  deriving DecidableEq, Repr

/-- The behaviour of the collaborators.  The `Nat` argument is the number of
collaborator calls made before this one.  `storeFault` and `setRefFault`
inject a failure into a store call or an ownership-binder call; `none` lets
the call take its normal course. -/
structure Env where
  storeFault : Nat → Event → Option Error
  setRefFault : Nat → Provisioning → Secret → Option Error
  randomPassword : Nat → Except Error String
  bcrypt : Nat → String → Nat → Except Error (List Char)
  tlsCertificate : Nat → String → Except Error TlsCertificate
  certificateExpired : Nat → String → Except Error Bool

/-- How a Go function call ends: it returns an `error` value, or it panics. -/
inductive Outcome where
  | returned (err : Option Error)
  | panicked (message : String)
  deriving DecidableEq, Repr

/-! ## Constants of the file -/

def baremetalSecretName : String := "metal3-mariadb-password"
def baremetalSecretKey : String := "password"
def ironicUsernameKey : String := "username"
def ironicPasswordKey : String := "password"
def ironicHtpasswdKey : String := "htpasswd"
def ironicConfigKey : String := "auth-config"
def ironicSecretName : String := "metal3-ironic-password"
def ironicrpcSecretName : String := "metal3-ironic-rpc-password"
def ironicrpcUsername : String := "rpc-user"
def ironicUsername : String := "ironic-user"
def inspectorSecretName : String := "metal3-ironic-inspector-password"
def inspectorUsername : String := "inspector-user"
def tlsSecretName : String := "metal3-ironic-tls"
def tlsCertificateKey : String := "tls.crt"
def tlsPrivateKeyKey : String := "tls.key"

/-! ## Library functions on errors -/

/-- The reason test behind `apierrors.IsNotFound`, which looks through
wrapped errors. -/
def Error.isNotFound : Error → Bool
  | .status reason _ => decide (reason = StatusReason.notFound)
  | .other _ => false
  | .wrap cause _ => cause.isNotFound

/-- Model of `apierrors.IsNotFound(err)`; false on `nil`. -/
def IsNotFound : Option Error → Bool
  | some e => e.isNotFound
  | none => false

/-- Model of `client.IgnoreNotFound(err)`. -/
def IgnoreNotFound (err : Option Error) : Option Error :=
  if IsNotFound err then none else err

/-- Model of `errors.Wrap(err, message)`; `nil` stays `nil`. -/
def Wrap (err : Option Error) (message : String) : Option Error :=
  match err with
  | none => none
  | some e => some (Error.wrap e message)

/-- Model of `utilerrors.NewAggregate(errlist)` on a list of non-nil errors: `nil` for
the empty list, otherwise the aggregate of the errors in order. -/
def NewAggregate (errlist : List Error) : Option Aggregate :=
  if errlist.length = 0 then none else some { errors := errlist }

/-! ## The collaborators as steps on the world -/

/-- Record a collaborator call. -/
def World.log (w : World) (ev : Event) : World :=
  { w with trace := w.trace ++ [ev] }

/-- The stored secret of that namespace and name, if any. -/
def findSecret (ns name : String) (store : List Secret) : Option Secret :=
  store.find? (fun s => decide (s.Namespace = ns) && decide (s.Name = name))

/-- The zero value of `corev1.Secret`. -/
def emptySecret : Secret :=
  { Name := "", Namespace := "", OwnerReferences := [], StringData := [] }

def notFoundError (name : String) : Error :=
  Error.status StatusReason.notFound ("secrets \"" ++ name ++ "\" not found")

def alreadyExistsError (name : String) : Error :=
  Error.status StatusReason.alreadyExists ("secrets \"" ++ name ++ "\" already exists")

/-- Model of `client.Secrets(ns).Get(ctx, name, opts)`. -/
def Get (env : Env) (ns name : String) (w : World) : Secret × Option Error × World :=
  match env.storeFault w.trace.length (Event.get ns name) with
  | some e => (emptySecret, some e, w.log (Event.get ns name))
  | none =>
    match findSecret ns name w.store with
    | some s => (s, none, w.log (Event.get ns name))
    | none => (emptySecret, some (notFoundError name), w.log (Event.get ns name))

/-- Model of `client.Secrets(ns).Create(ctx, secret, opts)`, result secret dropped. -/
def Create (env : Env) (ns : String) (secret : Secret) (w : World) : Option Error × World :=
  match env.storeFault w.trace.length (Event.create ns secret) with
  | some e => (some e, w.log (Event.create ns secret))
  | none =>
    match findSecret ns secret.Name w.store with
    | some _ => (some (alreadyExistsError secret.Name), w.log (Event.create ns secret))
    | none => (none, { store := w.store ++ [secret], trace := w.trace ++ [Event.create ns secret] })

/-- Replace the stored secret of that namespace and name. -/
def replaceSecret (ns : String) (secret : Secret) (store : List Secret) : List Secret :=
  store.map (fun s => if s.Namespace = ns ∧ s.Name = secret.Name then secret else s)

/-- Model of `client.Secrets(ns).Update(ctx, secret, opts)`, result secret dropped. -/
def Update (env : Env) (ns : String) (secret : Secret) (w : World) : Option Error × World :=
  match env.storeFault w.trace.length (Event.update ns secret) with
  | some e => (some e, w.log (Event.update ns secret))
  | none =>
    match findSecret ns secret.Name w.store with
    | none => (some (notFoundError secret.Name), w.log (Event.update ns secret))
    | some _ =>
      (none, { store := replaceSecret ns secret w.store, trace := w.trace ++ [Event.update ns secret] })

/-- Model of `client.Secrets(ns).Delete(ctx, name, opts)`. -/
def Delete (env : Env) (ns name : String) (w : World) : Option Error × World :=
  match env.storeFault w.trace.length (Event.delete ns name) with
  | some e => (some e, w.log (Event.delete ns name))
  | none =>
    match findSecret ns name w.store with
    | none => (some (notFoundError name), w.log (Event.delete ns name))
    | some _ =>
      (none, { store := w.store.filter (fun s => !(decide (s.Namespace = ns) && decide (s.Name = name))),
               trace := w.trace ++ [Event.delete ns name] })

/-- The controller reference `SetControllerReference` builds for an owner. -/
def controllerRef (owner : Provisioning) : OwnerReference :=
  { APIVersion := owner.APIVersion, Kind := owner.Kind, Name := owner.Name, UID := owner.UID,
    Controller := true, BlockOwnerDeletion := true }

/-- Model of `referSameObject` of controllerutil: same API version, kind and name. -/
def referSameObject (a b : OwnerReference) : Bool :=
  decide (a.APIVersion = b.APIVersion) && decide (a.Kind = b.Kind) && decide (a.Name = b.Name)

/-- Model of `upsertOwnerRef` of controllerutil: replace the reference to the same
object, or append. -/
def upsertOwnerRef (ref : OwnerReference) (refs : List OwnerReference) : List OwnerReference :=
  if refs.any (fun r => referSameObject r ref) then
    refs.map (fun r => if referSameObject r ref then ref else r)
  else refs ++ [ref]

/-- Model of `controllerutil.SetControllerReference(owner, object, scheme)`.  The
object is returned as Go leaves it: with the controller reference on
success, untouched on failure. -/
def SetControllerReference (env : Env) (owner : Provisioning) (object : Secret) (w : World) :
    Secret × Option Error × World :=
  match env.setRefFault w.trace.length owner object with
  | some e => (object, some e, w.log (Event.setControllerReference owner object))
  | none =>
    match object.OwnerReferences.find? (fun r => r.Controller) with
    | some existing =>
      if referSameObject existing (controllerRef owner) then
        ({ object with OwnerReferences := upsertOwnerRef (controllerRef owner) object.OwnerReferences },
          none, w.log (Event.setControllerReference owner object))
      else
        (object, some (Error.other ("Object " ++ object.Name ++ " is already owned by another controller")),
          w.log (Event.setControllerReference owner object))
    | none =>
      ({ object with OwnerReferences := upsertOwnerRef (controllerRef owner) object.OwnerReferences },
        none, w.log (Event.setControllerReference owner object))

/-- Model of `generateRandomPassword()`. -/
def generateRandomPassword (env : Env) (w : World) : String × Option Error × World :=
  match env.randomPassword w.trace.length with
  | .ok p => (p, none, w.log Event.generateRandomPassword)
  | .error e => ("", some e, w.log Event.generateRandomPassword)

/-- Model of `bcrypt.GenerateFromPassword([]byte(password), cost)`. -/
def GenerateFromPassword (env : Env) (password : String) (cost : Nat) (w : World) :
    List Char × Option Error × World :=
  match env.bcrypt w.trace.length password cost with
  | .ok h => (h, none, w.log (Event.bcryptGenerateFromPassword password cost))
  | .error e => ([], some e, w.log (Event.bcryptGenerateFromPassword password cost))

/-- Model of `generateTlsCertificate(ip)`. -/
def generateTlsCertificate (env : Env) (ip : String) (w : World) :
    TlsCertificate × Option Error × World :=
  match env.tlsCertificate w.trace.length ip with
  | .ok c => (c, none, w.log (Event.generateTlsCertificate ip))
  | .error e => ({ privateKey := "", certificate := "" }, some e, w.log (Event.generateTlsCertificate ip))

/-- Model of `IsTlsCertificateExpired(certificate)`. -/
def IsTlsCertificateExpired (env : Env) (certificate : String) (w : World) :
    Bool × Option Error × World :=
  match env.certificateExpired w.trace.length certificate with
  | .ok b => (b, none, w.log (Event.isTlsCertificateExpired certificate))
  | .error e => (false, some e, w.log (Event.isTlsCertificateExpired certificate))

/-- Go map index `m[key]`: the zero value `""` for a missing key. -/
def mapIndex (m : List (String × String)) (key : String) : String :=
  (m.lookup key).getD ""

/-! ## The functions of the file -/

/-- Model of `createMariadbPasswordSecret`. -/
def createMariadbPasswordSecret (env : Env) (targetNamespace : String)
    (baremetalConfig : Provisioning) (w : World) : Outcome × World :=
  match Get env targetNamespace baremetalSecretName w with
  | (existing, err, w) =>
    if err.isNone && existing.OwnerReferences.length == 0 then
      match SetControllerReference env baremetalConfig existing w with
      | (existing, err, w) =>
        if err.isSome then (.returned err, w)
        else
          match Update env targetNamespace existing w with
          | (err, w) => (.returned err, w)
    else if !IsNotFound err then (.returned err, w)
    else
      -- Secret does not already exist. So, create one.
      match generateRandomPassword env w with
      | (password, err, w) =>
        if err.isSome then (.returned err, w)
        else
          match SetControllerReference env baremetalConfig
              { Name := baremetalSecretName, Namespace := targetNamespace, OwnerReferences := [],
                StringData := [(baremetalSecretKey, password)] } w with
          | (secret, err, w) =>
            if err.isSome then (.returned err, w)
            else
              match Create env targetNamespace secret w with
              | (err, w) => (.returned err, w)

/-- Model of `createIronicSecret`.  `hash[2] = 'y'` panics when the hash has fewer
than three bytes. -/
def createIronicSecret (env : Env) (targetNamespace name username configSection : String)
    (baremetalConfig : Provisioning) (w : World) : Outcome × World :=
  match Get env targetNamespace name w with
  | (existing, err, w) =>
    if err.isNone && existing.OwnerReferences.length == 0 then
      match SetControllerReference env baremetalConfig existing w with
      | (existing, err, w) =>
        if err.isSome then (.returned err, w)
        else
          match Update env targetNamespace existing w with
          | (err, w) => (.returned err, w)
    else if !IsNotFound err then (.returned err, w)
    else
      -- Secret does not already exist. So, create one.
      match generateRandomPassword env w with
      | (password, err, w) =>
        if err.isSome then (.returned err, w)
        else
          match GenerateFromPassword env password 5 w with
          | (hash, err, w) =>
            if err.isSome then (.returned err, w)
            else if hash.length ≤ 2 then
              (.panicked "runtime error: index out of range", w)
            else
              match SetControllerReference env baremetalConfig
                  { Name := name, Namespace := targetNamespace, OwnerReferences := [],
                    StringData :=
                      [ (ironicUsernameKey, username),
                        (ironicPasswordKey, password),
                        (ironicHtpasswdKey, username ++ ":" ++ String.mk (hash.set 2 'y')),
                        (ironicConfigKey,
                          "[" ++ configSection ++ "]\nauth_type = http_basic\nusername = " ++ username
                            ++ "\npassword = " ++ password ++ "\n") ] } w with
              | (secret, err, w) =>
                if err.isSome then (.returned err, w)
                else
                  match Create env targetNamespace secret w with
                  | (err, w) => (.returned err, w)

/-- Model of `updateTlsSecret`.  The Go variable `changed` is kept as
written: set by the owner-reference block, overwritten after the
certificate is generated, and read only by the final `if changed`.  An empty
existing certificate skips the expiry check and goes on to generation. -/
def updateTlsSecret (env : Env) (targetNamespace : String) (baremetalConfig : Provisioning)
    (secret : Secret) (w : World) : Outcome × World :=
  match (if secret.OwnerReferences.length == 0 then
          match SetControllerReference env baremetalConfig secret w with
          | (secret, err, w) => (secret, err, true, w)
        else (secret, none, false, w)) with
  | (secret, err, _changed, w) =>
    if err.isSome then
      (.returned (Wrap err ("failed to set controller reference of Secret " ++ tlsSecretName)), w)
    else
      match (if mapIndex secret.StringData tlsCertificateKey ≠ "" then
              IsTlsCertificateExpired env (mapIndex secret.StringData tlsCertificateKey) w
            else (true, none, w)) with
      | (expired, err, w) =>
        if err.isSome then
          (.returned (Wrap err "failed to determine expiration date of TLS certificate"), w)
        else if !expired then (.returned none, w)
        else
          match generateTlsCertificate env baremetalConfig.Spec.ProvisioningIP w with
          | (cert, err, w) =>
            if err.isSome then (.returned (Wrap err "failed to generate new TLS certificate"), w)
            else
              let changed := true
              if changed then
                match Update env targetNamespace
                    { secret with
                      StringData := [(tlsCertificateKey, cert.certificate),
                                     (tlsPrivateKeyKey, cert.privateKey)] } w with
                | (err, w) => (.returned err, w)
              else (.returned none, w)

/-- Model of `CreateOrUpdateTlsSecret`. -/
def CreateOrUpdateTlsSecret (env : Env) (targetNamespace : String)
    (baremetalConfig : Provisioning) (w : World) : Outcome × World :=
  match Get env targetNamespace tlsSecretName w with
  | (existing, err, w) =>
    if err.isSome && !IsNotFound err then (.returned err, w)
    else if err.isNone then updateTlsSecret env targetNamespace baremetalConfig existing w
    else
      -- Secret does not already exist. So, create one.
      match generateTlsCertificate env baremetalConfig.Spec.ProvisioningIP w with
      | (cert, err, w) =>
        if err.isSome then (.returned err, w)
        else
          match SetControllerReference env baremetalConfig
              { Name := tlsSecretName, Namespace := targetNamespace, OwnerReferences := [],
                StringData := [(tlsCertificateKey, cert.certificate),
                               (tlsPrivateKeyKey, cert.privateKey)] } w with
          | (secret, err, w) =>
            if err.isSome then (.returned err, w)
            else
              match Create env targetNamespace secret w with
              | (err, w) => (.returned err, w)

/-- One stage of `CreateAllSecrets`: `if err := stage; err != nil` returns
the wrapped error, a panic unwinds, `nil` goes on to the rest. -/
def stage (r : Outcome × World) (message : String) (rest : World → Outcome × World) :
    Outcome × World :=
  match r with
  | (.panicked m, w) => (.panicked m, w)
  | (.returned (some e), w) => (.returned (Wrap (some e) message), w)
  | (.returned none, w) => rest w

/-- Model of `CreateAllSecrets`. -/
def CreateAllSecrets (env : Env) (targetNamespace : String) (baremetalConfig : Provisioning)
    (w : World) : Outcome × World :=
  stage (createMariadbPasswordSecret env targetNamespace baremetalConfig w)
    "failed to create Mariadb password" fun w =>
  stage (createIronicSecret env targetNamespace ironicSecretName ironicUsername "ironic"
      baremetalConfig w)
    "failed to create Ironic password" fun w =>
  stage (createIronicSecret env targetNamespace ironicrpcSecretName ironicrpcUsername "json_rpc"
      baremetalConfig w)
    "failed to create Ironic rpc password" fun w =>
  stage (createIronicSecret env targetNamespace inspectorSecretName inspectorUsername "inspector"
      baremetalConfig w)
    "failed to create Inspector password" fun w =>
  stage (CreateOrUpdateTlsSecret env targetNamespace baremetalConfig w)
    "failed to create TLS certificate" fun w =>
  (.returned none, w)

/-- The body of the `for` loop of `DeleteAllSecrets`, on the errors collected
so far and the world. -/
def deleteSecret (env : Env) (ns : String) (acc : List Error × World) (sn : String) :
    List Error × World :=
  match Delete env ns sn acc.2 with
  | (err, w) =>
    match IgnoreNotFound err with
    | some e => (acc.1 ++ [e], w)
    | none => (acc.1, w)

/-- Model of `DeleteAllSecrets`: the loop over the four names, collecting the errors
that `client.IgnoreNotFound` lets through. -/
def DeleteAllSecrets (env : Env) (info : ProvisioningInfo) (w : World) :
    Option Aggregate × World :=
  match
    [baremetalSecretName, ironicSecretName, inspectorSecretName, ironicrpcSecretName].foldl
      (deleteSecret env info.Namespace) (([] : List Error), w) with
  | (secretErrors, w) => (NewAggregate secretErrors, w)

/-! ## Reading a trace -/

def Event.isCreate : Event → Bool
  | .create _ _ => true
  | _ => false

def Event.isUpdate : Event → Bool
  | .update _ _ => true
  | _ => false

def Event.isDelete : Event → Bool
  | .delete _ _ => true
  | _ => false

/-- A call that changes the store when it succeeds. -/
def Event.isMutation (ev : Event) : Bool :=
  ev.isCreate || ev.isUpdate || ev.isDelete

/-- A call to the password generator, the hash routine or the certificate
generator. -/
def Event.isGeneration : Event → Bool
  | .generateRandomPassword => true
  | .bcryptGenerateFromPassword _ _ => true
  | .generateTlsCertificate _ => true
  | _ => false

/-- The calls made between world `w` and the later world `w2`. -/
def callsSince (w w2 : World) : List Event :=
  w2.trace.drop w.trace.length

/-! ## Sample collaborators and worlds -/

def sampleConfig : Provisioning :=
  { APIVersion := "metal3.io/v1alpha1", Kind := "Provisioning",
    Name := "provisioning-configuration", UID := "uid-1",
    Spec := { ProvisioningIP := "172.22.0.3" } }

/-- Collaborators that all succeed; certificates are reported as not expired. -/
def sampleEnv : Env :=
  { storeFault := fun _ _ => none
    setRefFault := fun _ _ _ => none
    randomPassword := fun _ => .ok "abc123"
    bcrypt := fun _ _ _ => .ok ['$', '2', 'a', '$', '0', '5', '$', 's', 'a', 'l', 't']
    tlsCertificate := fun _ _ => .ok { privateKey := "new-key", certificate := "new-cert" }
    certificateExpired := fun _ _ => .ok false }

/-- As `sampleEnv`, with every certificate reported as expired. -/
def expiredEnv : Env :=
  { sampleEnv with certificateExpired := fun _ _ => .ok true }

/-- As `sampleEnv`, with the expiry check failing to parse the certificate. -/
def unparsableEnv : Env :=
  { sampleEnv with certificateExpired := fun _ _ => .error (Error.other "failed to parse certificate") }

/-- As `sampleEnv`, with a store call failing when it is the second or the
fourth collaborator call: the second with a connection error, the fourth
with a permission error. -/
def faultyEnv : Env :=
  { sampleEnv with
    storeFault := fun n _ =>
      if n = 1 then some (Error.other "connection refused")
      else if n = 3 then some (Error.status StatusReason.forbidden "forbidden")
      else none }

def emptyWorld : World := { store := [], trace := [] }

def unownedTlsSecret : Secret :=
  { Name := tlsSecretName, Namespace := "openshift-machine-api", OwnerReferences := [],
    StringData := [(tlsCertificateKey, "old-cert"), (tlsPrivateKeyKey, "old-key")] }

def ownedTlsSecret : Secret :=
  { unownedTlsSecret with OwnerReferences := [controllerRef sampleConfig] }

def unownedIronicSecret : Secret :=
  { Name := ironicSecretName, Namespace := "openshift-machine-api", OwnerReferences := [],
    StringData := [(ironicUsernameKey, "ironic-user"), (ironicPasswordKey, "pw")] }

def ownedIronicSecret : Secret :=
  { unownedIronicSecret with OwnerReferences := [controllerRef sampleConfig] }

/-! ## The world after a collaborator call -/

theorem Get_world (env : Env) (ns name : String) (w : World) :
    (Get env ns name w).2.2 = w.log (Event.get ns name) := by
  unfold Get
  split
  · rfl
  · split <;> rfl

theorem SetControllerReference_world (env : Env) (owner : Provisioning) (object : Secret)
    (w : World) :
    (SetControllerReference env owner object w).2.2
      = w.log (Event.setControllerReference owner object) := by
  unfold SetControllerReference
  split
  · rfl
  · split
    · split <;> rfl
    · rfl

theorem SetControllerReference_unowned (env : Env) (owner : Provisioning) (object : Secret)
    (w : World) (h : object.OwnerReferences = []) :
    SetControllerReference env owner object w =
      match env.setRefFault w.trace.length owner object with
      | some e => (object, some e, w.log (Event.setControllerReference owner object))
      | none => ({ object with OwnerReferences := [controllerRef owner] }, none,
          w.log (Event.setControllerReference owner object)) := by
  unfold SetControllerReference
  split <;> simp [h, upsertOwnerRef]

theorem SetControllerReference_StringData (env : Env) (owner : Provisioning) (object : Secret)
    (w : World) :
    (SetControllerReference env owner object w).1.StringData = object.StringData := by
  unfold SetControllerReference
  split
  · rfl
  · split
    · split <;> rfl
    · rfl

theorem IsTlsCertificateExpired_world (env : Env) (c : String) (w : World) :
    (IsTlsCertificateExpired env c w).2.2 = w.log (Event.isTlsCertificateExpired c) := by
  unfold IsTlsCertificateExpired
  split <;> rfl

theorem generateTlsCertificate_world (env : Env) (ip : String) (w : World) :
    (generateTlsCertificate env ip w).2.2 = w.log (Event.generateTlsCertificate ip) := by
  unfold generateTlsCertificate
  split <;> rfl

theorem generateRandomPassword_world (env : Env) (w : World) :
    (generateRandomPassword env w).2.2 = w.log Event.generateRandomPassword := by
  unfold generateRandomPassword
  split <;> rfl

theorem GenerateFromPassword_world (env : Env) (p : String) (c : Nat) (w : World) :
    (GenerateFromPassword env p c w).2.2 = w.log (Event.bcryptGenerateFromPassword p c) := by
  unfold GenerateFromPassword
  split <;> rfl

theorem Create_trace (env : Env) (ns : String) (s : Secret) (w : World) :
    (Create env ns s w).2.trace = w.trace ++ [Event.create ns s] := by
  unfold Create
  split
  · rfl
  · split <;> rfl

theorem Update_trace (env : Env) (ns : String) (s : Secret) (w : World) :
    (Update env ns s w).2.trace = w.trace ++ [Event.update ns s] := by
  unfold Update
  split
  · rfl
  · split <;> rfl

theorem Delete_trace (env : Env) (ns name : String) (w : World) :
    (Delete env ns name w).2.trace = w.trace ++ [Event.delete ns name] := by
  unfold Delete
  split
  · rfl
  · split <;> rfl

/-! ## TLS secret -/

/-- C2: an existing, owned TLS secret with a non-empty certificate is updated
exactly when the expiry check answers true; the update is the only store
mutation and carries the certificate and key of the one generated
certificate; when the check answers false nothing is generated or written
and the call succeeds. -/
theorem tls_owned_rotates_iff_expired (env : Env) (ns : String) (cfg : Provisioning)
    (w w1 w2 w3 : World) (existing : Secret) (b : Bool) (cert : TlsCertificate)
    (hget : Get env ns tlsSecretName w = (existing, none, w1))
    (howned : existing.OwnerReferences ≠ [])
    (hcrt : mapIndex existing.StringData tlsCertificateKey ≠ "")
    (hexp : IsTlsCertificateExpired env (mapIndex existing.StringData tlsCertificateKey) w1
      = (b, none, w2))
    (hgen : generateTlsCertificate env cfg.Spec.ProvisioningIP w2 = (cert, none, w3)) :
    let rotated : Secret :=
      { existing with
        StringData := [(tlsCertificateKey, cert.certificate), (tlsPrivateKeyKey, cert.privateKey)] }
    let r := CreateOrUpdateTlsSecret env ns cfg w
    (b = true →
      r = (.returned (Update env ns rotated w3).1, (Update env ns rotated w3).2)
      ∧ callsSince w r.2 =
          [Event.get ns tlsSecretName,
           Event.isTlsCertificateExpired (mapIndex existing.StringData tlsCertificateKey),
           Event.generateTlsCertificate cfg.Spec.ProvisioningIP,
           Event.update ns rotated])
    ∧ (b = false →
      r = (.returned none, w2)
      ∧ r.2.store = w.store
      ∧ callsSince w r.2 =
          [Event.get ns tlsSecretName,
           Event.isTlsCertificateExpired (mapIndex existing.StringData tlsCertificateKey)])
    ∧ (callsSince w r.2).any Event.isUpdate = b := by
  intro rotated r
  have h1 : w1 = w.log (Event.get ns tlsSecretName) := by
    have := Get_world env ns tlsSecretName w
    rw [hget] at this
    exact this
  have h2 : w2 = w1.log
      (Event.isTlsCertificateExpired (mapIndex existing.StringData tlsCertificateKey)) := by
    have := IsTlsCertificateExpired_world env
      (mapIndex existing.StringData tlsCertificateKey) w1
    rw [hexp] at this
    exact this
  have h3 : w3 = w2.log (Event.generateTlsCertificate cfg.Spec.ProvisioningIP) := by
    have := generateTlsCertificate_world env cfg.Spec.ProvisioningIP w2
    rw [hgen] at this
    exact this
  have hlen : existing.OwnerReferences.length ≠ 0 := by
    simpa [List.length_eq_zero] using howned
  have hr : r = if b then (.returned (Update env ns rotated w3).1, (Update env ns rotated w3).2)
      else (.returned none, w2) := by
    cases b <;>
    simp [r, rotated, CreateOrUpdateTlsSecret, updateTlsSecret, hget, hlen, hcrt, hexp, hgen,
      IsNotFound]
  cases b
  · simp [hr, h2, h1, World.log, callsSince, Event.isUpdate]
  · simp [hr, h3, h2, h1, World.log, callsSince, Update_trace, Event.isUpdate]

/-- Witness for C2 on a store that holds an owned TLS secret whose
certificate is reported as expired. -/
theorem tls_owned_rotates_iff_expired_witness :
    Get expiredEnv "openshift-machine-api" tlsSecretName
        { store := [ownedTlsSecret], trace := [] }
      = (ownedTlsSecret, none,
          { store := [ownedTlsSecret],
            trace := [Event.get "openshift-machine-api" tlsSecretName] })
    ∧ ownedTlsSecret.OwnerReferences ≠ []
    ∧ mapIndex ownedTlsSecret.StringData tlsCertificateKey ≠ ""
    ∧ (callsSince { store := [ownedTlsSecret], trace := [] }
        (CreateOrUpdateTlsSecret expiredEnv "openshift-machine-api" sampleConfig
          { store := [ownedTlsSecret], trace := [] }).2).any Event.isUpdate = true :=
  ⟨by decide, by decide, by decide,
    (tls_owned_rotates_iff_expired expiredEnv "openshift-machine-api" sampleConfig
      { store := [ownedTlsSecret], trace := [] }
      { store := [ownedTlsSecret], trace := [Event.get "openshift-machine-api" tlsSecretName] }
      { store := [ownedTlsSecret],
        trace := [Event.get "openshift-machine-api" tlsSecretName,
                  Event.isTlsCertificateExpired "old-cert"] }
      { store := [ownedTlsSecret],
        trace := [Event.get "openshift-machine-api" tlsSecretName,
                  Event.isTlsCertificateExpired "old-cert",
                  Event.generateTlsCertificate "172.22.0.3"] }
      ownedTlsSecret true { privateKey := "new-key", certificate := "new-cert" }
      (by decide) (by decide) (by decide) (by decide) (by decide)).2.2⟩

/-- C9: when the expiry check fails on the non-empty certificate of an
existing TLS secret, owned or not, the call returns an error, makes no
Create, Update or Delete call and no generator call, and leaves the store as
it was. -/
theorem tls_unparsable_certificate_aborts (env : Env) (ns : String) (cfg : Provisioning)
    (w w1 : World) (existing : Secret)
    (hget : Get env ns tlsSecretName w = (existing, none, w1))
    (hcrt : mapIndex existing.StringData tlsCertificateKey ≠ "")
    (hexp : ∀ w2, (IsTlsCertificateExpired env
      (mapIndex existing.StringData tlsCertificateKey) w2).2.1 ≠ none) :
    (∃ e, (CreateOrUpdateTlsSecret env ns cfg w).1 = .returned (some e))
    ∧ (CreateOrUpdateTlsSecret env ns cfg w).2.store = w.store
    ∧ (callsSince w (CreateOrUpdateTlsSecret env ns cfg w).2).all
        (fun ev => !ev.isMutation && !ev.isGeneration) = true := by
  have h1 : w1 = w.log (Event.get ns tlsSecretName) := by
    have := Get_world env ns tlsSecretName w
    rw [hget] at this
    exact this
  by_cases hlen : existing.OwnerReferences.length = 0
  · rcases hs : SetControllerReference env cfg existing w1 with ⟨s2, err2, w2⟩
    have h2 : w2 = w1.log (Event.setControllerReference cfg existing) := by
      have := SetControllerReference_world env cfg existing w1
      rw [hs] at this
      exact this
    have hdata : s2.StringData = existing.StringData := by
      have := SetControllerReference_StringData env cfg existing w1
      rw [hs] at this
      exact this
    cases err2 with
    | some e =>
      have hr : CreateOrUpdateTlsSecret env ns cfg w
          = (.returned (some (Error.wrap e
              ("failed to set controller reference of Secret " ++ tlsSecretName))), w2) := by
        simp [CreateOrUpdateTlsSecret, updateTlsSecret, hget, hlen, hs, IsNotFound, Wrap]
      rw [hr]
      simp [h2, h1, World.log, callsSince, Event.isMutation, Event.isCreate, Event.isUpdate,
        Event.isDelete, Event.isGeneration]
    | none =>
      rcases he : IsTlsCertificateExpired env
        (mapIndex existing.StringData tlsCertificateKey) w2 with ⟨b, err3, w3⟩
      have h3 : w3 = w2.log
          (Event.isTlsCertificateExpired (mapIndex existing.StringData tlsCertificateKey)) := by
        have := IsTlsCertificateExpired_world env
          (mapIndex existing.StringData tlsCertificateKey) w2
        rw [he] at this
        exact this
      have hne := hexp w2
      rw [he] at hne
      cases err3 with
      | none => exact absurd rfl hne
      | some e =>
        have hr : CreateOrUpdateTlsSecret env ns cfg w
            = (.returned (some (Error.wrap e
                "failed to determine expiration date of TLS certificate")), w3) := by
          simp [CreateOrUpdateTlsSecret, updateTlsSecret, hget, hlen, hs, hdata, hcrt, he,
            IsNotFound, Wrap]
        rw [hr]
        simp [h3, h2, h1, World.log, callsSince, Event.isMutation, Event.isCreate,
          Event.isUpdate, Event.isDelete, Event.isGeneration]
  · rcases he : IsTlsCertificateExpired env
      (mapIndex existing.StringData tlsCertificateKey) w1 with ⟨b, err3, w3⟩
    have h3 : w3 = w1.log
        (Event.isTlsCertificateExpired (mapIndex existing.StringData tlsCertificateKey)) := by
      have := IsTlsCertificateExpired_world env
        (mapIndex existing.StringData tlsCertificateKey) w1
      rw [he] at this
      exact this
    have hne := hexp w1
    rw [he] at hne
    cases err3 with
    | none => exact absurd rfl hne
    | some e =>
      have hr : CreateOrUpdateTlsSecret env ns cfg w
          = (.returned (some (Error.wrap e
              "failed to determine expiration date of TLS certificate")), w3) := by
        simp [CreateOrUpdateTlsSecret, updateTlsSecret, hget, hlen, hcrt, he, IsNotFound, Wrap]
      rw [hr]
      simp [h3, h1, World.log, callsSince, Event.isMutation, Event.isCreate,
        Event.isUpdate, Event.isDelete, Event.isGeneration]

/-- Witness for C9 on a store that holds an unowned TLS secret whose
certificate the expiry check cannot parse. -/
theorem tls_unparsable_certificate_aborts_witness :
    Get unparsableEnv "openshift-machine-api" tlsSecretName
        { store := [unownedTlsSecret], trace := [] }
      = (unownedTlsSecret, none,
          { store := [unownedTlsSecret],
            trace := [Event.get "openshift-machine-api" tlsSecretName] })
    ∧ mapIndex unownedTlsSecret.StringData tlsCertificateKey ≠ ""
    ∧ (CreateOrUpdateTlsSecret unparsableEnv "openshift-machine-api" sampleConfig
        { store := [unownedTlsSecret], trace := [] }).2.store = [unownedTlsSecret] :=
  ⟨by decide, by decide,
    (tls_unparsable_certificate_aborts unparsableEnv "openshift-machine-api" sampleConfig
      { store := [unownedTlsSecret], trace := [] }
      { store := [unownedTlsSecret], trace := [Event.get "openshift-machine-api" tlsSecretName] }
      unownedTlsSecret (by decide) (by decide)
      (fun w2 => by simp [IsTlsCertificateExpired, unparsableEnv])).2.1⟩

/-! ## Plain credential secrets -/

/-- C3: when Get finds a secret with no owner reference, both
`createIronicSecret` and `createMariadbPasswordSecret` call the ownership
binder; if it succeeds they issue one Update of the fetched secret with the
controller reference set and everything else unchanged, make no Create and
no generator call, and return what Update returned; if it fails they return
its error and touch nothing. -/
theorem backfill_owner_reference (env : Env) (ns name username configSection : String)
    (cfg : Provisioning) (w w1 w2 : World) (existing bound : Secret) (err : Option Error)
    (hget : Get env ns name w = (existing, none, w1))
    (hun : existing.OwnerReferences = [])
    (hset : SetControllerReference env cfg existing w1 = (bound, err, w2)) :
    ∀ r, (r = createIronicSecret env ns name username configSection cfg w
          ∨ (name = baremetalSecretName ∧ r = createMariadbPasswordSecret env ns cfg w)) →
      (err = none →
        bound = { existing with OwnerReferences := [controllerRef cfg] }
        ∧ r = (.returned (Update env ns bound w2).1, (Update env ns bound w2).2)
        ∧ callsSince w r.2 =
            [Event.get ns name, Event.setControllerReference cfg existing,
             Event.update ns bound])
      ∧ (err ≠ none →
        r = (.returned err, w2)
        ∧ r.2.store = w.store
        ∧ callsSince w r.2 = [Event.get ns name, Event.setControllerReference cfg existing]) := by
  have h1 : w1 = w.log (Event.get ns name) := by
    have := Get_world env ns name w
    rw [hget] at this
    exact this
  have h2 : w2 = w1.log (Event.setControllerReference cfg existing) := by
    have := SetControllerReference_world env cfg existing w1
    rw [hset] at this
    exact this
  have hb : err = none → bound = { existing with OwnerReferences := [controllerRef cfg] } := by
    intro he
    have := SetControllerReference_unowned env cfg existing w1 hun
    rw [hset, he] at this
    split at this <;> simp_all
  have key : ∀ r, (r = createIronicSecret env ns name username configSection cfg w
      ∨ (name = baremetalSecretName ∧ r = createMariadbPasswordSecret env ns cfg w)) →
      r = if err.isSome then (.returned err, w2)
          else (.returned (Update env ns bound w2).1, (Update env ns bound w2).2) := by
    intro r hr
    rcases hr with hr | ⟨hn, hr⟩
    · subst hr
      cases err <;> simp [createIronicSecret, hget, hun, hset]
    · subst hr
      subst hn
      cases err <;> simp [createMariadbPasswordSecret, hget, hun, hset]
  intro r hr
  have hk := key r hr
  constructor
  · intro he
    subst he
    refine ⟨hb rfl, by simpa using hk, ?_⟩
    simp [hk, callsSince, Update_trace, h2, h1, World.log]
  · intro he
    cases err with
    | none => exact absurd rfl he
    | some e => simp [hk, callsSince, h2, h1, World.log]

/-- Witness for C3 on a store that holds an unowned Ironic secret. -/
theorem backfill_owner_reference_witness :
    Get sampleEnv "openshift-machine-api" ironicSecretName
        { store := [unownedIronicSecret], trace := [] }
      = (unownedIronicSecret, none,
          { store := [unownedIronicSecret],
            trace := [Event.get "openshift-machine-api" ironicSecretName] })
    ∧ unownedIronicSecret.OwnerReferences = []
    ∧ callsSince { store := [unownedIronicSecret], trace := [] }
        (createIronicSecret sampleEnv "openshift-machine-api" ironicSecretName ironicUsername
          "ironic" sampleConfig { store := [unownedIronicSecret], trace := [] }).2
      = [Event.get "openshift-machine-api" ironicSecretName,
         Event.setControllerReference sampleConfig unownedIronicSecret,
         Event.update "openshift-machine-api" ownedIronicSecret] :=
  ⟨by decide, by decide,
    ((backfill_owner_reference sampleEnv "openshift-machine-api" ironicSecretName ironicUsername
      "ironic" sampleConfig
      { store := [unownedIronicSecret], trace := [] }
      { store := [unownedIronicSecret],
        trace := [Event.get "openshift-machine-api" ironicSecretName] }
      { store := [unownedIronicSecret],
        trace := [Event.get "openshift-machine-api" ironicSecretName,
                  Event.setControllerReference sampleConfig unownedIronicSecret] }
      unownedIronicSecret ownedIronicSecret none (by decide) (by decide) (by decide)
      _ (Or.inl rfl)).1 rfl).2.2⟩

/-- C4: when Get returns a secret that already has an owner reference, or an
error other than NotFound, both `createIronicSecret` and
`createMariadbPasswordSecret` return the error value of Get as it is (nil
for the owned secret), having made no other call: no Create, no Update, no
generator, and the store is unchanged. -/
theorem owned_or_failed_get_is_returned (env : Env)
    (ns name username configSection : String) (cfg : Provisioning) (w w1 : World)
    (existing : Secret) (err : Option Error)
    (hget : Get env ns name w = (existing, err, w1))
    (hcase : (err = none ∧ existing.OwnerReferences ≠ [])
      ∨ (err ≠ none ∧ IsNotFound err = false)) :
    ∀ r, (r = createIronicSecret env ns name username configSection cfg w
          ∨ (name = baremetalSecretName ∧ r = createMariadbPasswordSecret env ns cfg w)) →
      r = (.returned err, w1)
      ∧ r.2.store = w.store
      ∧ callsSince w r.2 = [Event.get ns name] := by
  have h1 : w1 = w.log (Event.get ns name) := by
    have := Get_world env ns name w
    rw [hget] at this
    exact this
  have key : ∀ r, (r = createIronicSecret env ns name username configSection cfg w
      ∨ (name = baremetalSecretName ∧ r = createMariadbPasswordSecret env ns cfg w)) →
      r = (.returned err, w1) := by
    intro r hr
    rcases hcase with ⟨he, ho⟩ | ⟨he, hnf⟩
    · subst he
      rcases hr with hr | ⟨hn, hr⟩
      · subst hr
        simp [createIronicSecret, hget, ho, IsNotFound]
      · subst hr
        subst hn
        simp [createMariadbPasswordSecret, hget, ho, IsNotFound]
    · cases err with
      | none => exact absurd rfl he
      | some e =>
        rcases hr with hr | ⟨hn, hr⟩
        · subst hr
          simp [createIronicSecret, hget, hnf]
        · subst hr
          subst hn
          simp [createMariadbPasswordSecret, hget, hnf]
  intro r hr
  have hk := key r hr
  subst hk
  simp [h1, World.log, callsSince]

/-- Witness for C4 on a store that holds an owned Ironic secret. -/
theorem owned_or_failed_get_is_returned_witness :
    Get sampleEnv "openshift-machine-api" ironicSecretName
        { store := [ownedIronicSecret], trace := [] }
      = (ownedIronicSecret, none,
          { store := [ownedIronicSecret],
            trace := [Event.get "openshift-machine-api" ironicSecretName] })
    ∧ ownedIronicSecret.OwnerReferences ≠ []
    ∧ createIronicSecret sampleEnv "openshift-machine-api" ironicSecretName ironicUsername
          "ironic" sampleConfig { store := [ownedIronicSecret], trace := [] }
      = (.returned none,
          { store := [ownedIronicSecret],
            trace := [Event.get "openshift-machine-api" ironicSecretName] }) :=
  ⟨by decide, by decide,
    (owned_or_failed_get_is_returned sampleEnv "openshift-machine-api" ironicSecretName
      ironicUsername "ironic" sampleConfig
      { store := [ownedIronicSecret], trace := [] }
      { store := [ownedIronicSecret],
        trace := [Event.get "openshift-machine-api" ironicSecretName] }
      ownedIronicSecret none (by decide) (Or.inl ⟨rfl, by decide⟩) _ (Or.inl rfl)).1⟩

/-- C1 (evaluation at the failing input): on a store that holds a TLS secret
with no owner reference and a certificate that is reported as not expired,
with the ownership binder succeeding, `CreateOrUpdateTlsSecret` returns nil
after Get, SetControllerReference and the expiry check only: no Update is
issued and the stored secret still has no owner reference. -/
theorem tls_unowned_valid_is_not_persisted :
    Get sampleEnv "openshift-machine-api" tlsSecretName
        { store := [unownedTlsSecret], trace := [] }
      = (unownedTlsSecret, none,
          { store := [unownedTlsSecret],
            trace := [Event.get "openshift-machine-api" tlsSecretName] })
    ∧ unownedTlsSecret.OwnerReferences = []
    ∧ IsTlsCertificateExpired sampleEnv (mapIndex unownedTlsSecret.StringData tlsCertificateKey)
        { store := [unownedTlsSecret],
          trace := [Event.get "openshift-machine-api" tlsSecretName,
                    Event.setControllerReference sampleConfig unownedTlsSecret] }
      = (false, none,
          { store := [unownedTlsSecret],
            trace := [Event.get "openshift-machine-api" tlsSecretName,
                      Event.setControllerReference sampleConfig unownedTlsSecret,
                      Event.isTlsCertificateExpired "old-cert"] })
    ∧ CreateOrUpdateTlsSecret sampleEnv "openshift-machine-api" sampleConfig
        { store := [unownedTlsSecret], trace := [] }
      = (.returned none,
          { store := [unownedTlsSecret],
            trace := [Event.get "openshift-machine-api" tlsSecretName,
                      Event.setControllerReference sampleConfig unownedTlsSecret,
                      Event.isTlsCertificateExpired "old-cert"] })
    ∧ (callsSince { store := [unownedTlsSecret], trace := [] }
        (CreateOrUpdateTlsSecret sampleEnv "openshift-machine-api" sampleConfig
          { store := [unownedTlsSecret], trace := [] }).2).any Event.isUpdate = false := by
  decide

/-! ## The create path of `createIronicSecret` -/

theorem SetControllerReference_unowned_ok (env : Env) (owner : Provisioning) (object : Secret)
    (w : World) (h : object.OwnerReferences = [])
    (hok : env.setRefFault w.trace.length owner object = none) :
    SetControllerReference env owner object w
      = ({ object with OwnerReferences := [controllerRef owner] }, none,
          w.log (Event.setControllerReference owner object)) := by
  rw [SetControllerReference_unowned env owner object w h]
  simp [hok]

theorem createIronicSecret_absent (env : Env) (ns name username configSection : String)
    (cfg : Provisioning) (w w1 w2 w3 : World) (existing : Secret) (err : Option Error)
    (p : String) (h : List Char)
    (hget : Get env ns name w = (existing, err, w1))
    (hnf : IsNotFound err = true)
    (hpw : generateRandomPassword env w1 = (p, none, w2))
    (hhash : GenerateFromPassword env p 5 w2 = (h, none, w3))
    (hlen : 3 ≤ h.length)
    (hset : ∀ s, env.setRefFault w3.trace.length cfg s = none) :
    ∃ built stored : Secret,
      built =
        { Name := name, Namespace := ns, OwnerReferences := [],
          StringData :=
            [ (ironicUsernameKey, username),
              (ironicPasswordKey, p),
              (ironicHtpasswdKey, username ++ ":" ++ String.mk (h.set 2 'y')),
              (ironicConfigKey,
                "[" ++ configSection ++ "]\nauth_type = http_basic\nusername = " ++ username
                  ++ "\npassword = " ++ p ++ "\n") ] }
      ∧ stored = { built with OwnerReferences := [controllerRef cfg] }
      ∧ createIronicSecret env ns name username configSection cfg w
        = (.returned (Create env ns stored (w3.log (Event.setControllerReference cfg built))).1,
           (Create env ns stored (w3.log (Event.setControllerReference cfg built))).2) := by
  have hsome : err.isNone = false := by
    cases err with
    | none => simp [IsNotFound] at hnf
    | some e => rfl
  have hl : ¬ h.length ≤ 2 := by omega
  refine ⟨_, _, rfl, rfl, ?_⟩
  simp only [createIronicSecret, hget, hsome, hnf, hpw, hhash]
  rw [SetControllerReference_unowned_ok env cfg _ w3 rfl (hset _)]
  simp [hl]

theorem absent_path_worlds (env : Env) (ns name : String) (w w1 w2 w3 : World)
    (existing : Secret) (err : Option Error) (p : String) (h : List Char)
    (hget : Get env ns name w = (existing, err, w1))
    (hpw : generateRandomPassword env w1 = (p, none, w2))
    (hhash : GenerateFromPassword env p 5 w2 = (h, none, w3)) :
    w3 = { store := w.store,
           trace := w.trace ++ [Event.get ns name, Event.generateRandomPassword,
                                Event.bcryptGenerateFromPassword p 5] } := by
  have h1 : w1 = w.log (Event.get ns name) := by
    have := Get_world env ns name w
    rw [hget] at this
    exact this
  have h2 : w2 = w1.log Event.generateRandomPassword := by
    have := generateRandomPassword_world env w1
    rw [hpw] at this
    exact this
  have h3 : w3 = w2.log (Event.bcryptGenerateFromPassword p 5) := by
    have := GenerateFromPassword_world env p 5 w2
    rw [hhash] at this
    exact this
  simp [h3, h2, h1, World.log]

/-- C5: on the create path of `createIronicSecret`, when the hash routine
returns `h` with at least three bytes, the secret passed to Create stores
under `htpasswd` the username, a colon, and a hash that has the length of
`h`, the byte `y` at index 2 and the bytes of `h` everywhere else; so a hash
that begins with `$2a$` is stored beginning with `$2y$`, not `$2a`. -/
theorem htpasswd_version_byte (env : Env) (ns name username configSection : String)
    (cfg : Provisioning) (w w1 w2 w3 : World) (existing : Secret) (err : Option Error)
    (p : String) (h : List Char)
    (hget : Get env ns name w = (existing, err, w1))
    (hnf : IsNotFound err = true)
    (hpw : generateRandomPassword env w1 = (p, none, w2))
    (hhash : GenerateFromPassword env p 5 w2 = (h, none, w3))
    (hlen : 3 ≤ h.length)
    (hset : ∀ s, env.setRefFault w3.trace.length cfg s = none) :
    ∃ (stored : Secret) (h2 : List Char),
      (callsSince w (createIronicSecret env ns name username configSection cfg w).2).filter
          Event.isMutation = [Event.create ns stored]
      ∧ stored.StringData.lookup ironicHtpasswdKey = some (username ++ ":" ++ String.mk h2)
      ∧ h2.length = h.length
      ∧ h2[2]? = some 'y'
      ∧ (∀ i, i ≠ 2 → h2[i]? = h[i]?)
      ∧ (h.take 4 = ['$', '2', 'a', '$'] →
          h2.take 4 = ['$', '2', 'y', '$'] ∧ h2.take 3 ≠ ['$', '2', 'a']) := by
  obtain ⟨built, stored, hbuilt, hstored, hr⟩ :=
    createIronicSecret_absent env ns name username configSection cfg w w1 w2 w3
      existing err p h hget hnf hpw hhash hlen hset
  have hw := absent_path_worlds env ns name w w1 w2 w3 existing err p h hget hpw hhash
  refine ⟨stored, h.set 2 'y', ?_, ?_, ?_, ?_, ?_, ?_⟩
  · rw [hr]
    simp [callsSince, Create_trace, hw, World.log, Event.isMutation, Event.isCreate,
      Event.isUpdate, Event.isDelete]
  · simp [hstored, hbuilt, List.lookup, ironicHtpasswdKey, ironicUsernameKey, ironicPasswordKey]
  · simp
  · simp [List.getElem?_set]
    omega
  · intro i hi
    simp [List.getElem?_set, Ne.symm hi]
  · intro hp
    match h, hlen, hp with
    | a :: b :: c :: d :: t, _, hp =>
      simp at hp
      obtain ⟨ha, hb, hc, hd⟩ := hp
      subst ha hb hc hd
      simp
    | [a, b, c], _, hp => simp at hp

/-- Witness for C5 on an empty store, with a hash that begins with `$2a$`. -/
theorem htpasswd_version_byte_witness :
    IsNotFound (Get sampleEnv "openshift-machine-api" ironicSecretName emptyWorld).2.1 = true
    ∧ 3 ≤ ['$', '2', 'a', '$', '0', '5', '$', 's', 'a', 'l', 't'].length
    ∧ ∃ (stored : Secret) (h2 : List Char),
        (callsSince emptyWorld (createIronicSecret sampleEnv "openshift-machine-api"
            ironicSecretName ironicUsername "ironic" sampleConfig emptyWorld).2).filter
          Event.isMutation = [Event.create "openshift-machine-api" stored]
        ∧ stored.StringData.lookup ironicHtpasswdKey
            = some (ironicUsername ++ ":" ++ String.mk h2)
        ∧ h2.take 4 = ['$', '2', 'y', '$'] :=
  ⟨by decide, by decide,
    let ⟨stored, h2, hcalls, hline, _, _, _, hversion⟩ :=
      htpasswd_version_byte sampleEnv "openshift-machine-api" ironicSecretName ironicUsername
        "ironic" sampleConfig emptyWorld
        { store := [], trace := [Event.get "openshift-machine-api" ironicSecretName] }
        { store := [],
          trace := [Event.get "openshift-machine-api" ironicSecretName,
                    Event.generateRandomPassword] }
        { store := [],
          trace := [Event.get "openshift-machine-api" ironicSecretName,
                    Event.generateRandomPassword,
                    Event.bcryptGenerateFromPassword "abc123" 5] }
        emptySecret (some (notFoundError ironicSecretName)) "abc123"
        ['$', '2', 'a', '$', '0', '5', '$', 's', 'a', 'l', 't']
        (by decide) (by decide) (by decide) (by decide) (by decide) (fun _ => rfl)
    ⟨stored, h2, hcalls, hline, (hversion (by decide)).1⟩⟩

/-- C6: when Get reports NotFound and password generation, hashing (a hash
of at least three bytes) and the ownership binder succeed,
`createIronicSecret` issues exactly one Create and no Update; the created
secret has the given name and namespace, the controller reference as its
only owner reference, and exactly the keys `username`, `password`,
`htpasswd`, `auth-config`, holding the given username, the generated
password, and the config block built from the section, the username and the
same password. -/
theorem ironic_secret_created (env : Env) (ns name username configSection : String)
    (cfg : Provisioning) (w w1 w2 w3 : World) (existing : Secret) (err : Option Error)
    (p : String) (h : List Char)
    (hget : Get env ns name w = (existing, err, w1))
    (hnf : IsNotFound err = true)
    (hpw : generateRandomPassword env w1 = (p, none, w2))
    (hhash : GenerateFromPassword env p 5 w2 = (h, none, w3))
    (hlen : 3 ≤ h.length)
    (hset : ∀ s, env.setRefFault w3.trace.length cfg s = none) :
    ∃ built stored : Secret,
      createIronicSecret env ns name username configSection cfg w
        = (.returned (Create env ns stored (w3.log (Event.setControllerReference cfg built))).1,
           (Create env ns stored (w3.log (Event.setControllerReference cfg built))).2)
      ∧ callsSince w (createIronicSecret env ns name username configSection cfg w).2
        = [Event.get ns name, Event.generateRandomPassword,
           Event.bcryptGenerateFromPassword p 5, Event.setControllerReference cfg built,
           Event.create ns stored]
      ∧ stored.Name = name
      ∧ stored.Namespace = ns
      ∧ stored.OwnerReferences = [controllerRef cfg]
      ∧ stored.StringData.map Prod.fst = ["username", "password", "htpasswd", "auth-config"]
      ∧ stored.StringData.lookup "username" = some username
      ∧ stored.StringData.lookup "password" = some p
      ∧ stored.StringData.lookup "auth-config"
          = some ("[" ++ configSection ++ "]\nauth_type = http_basic\nusername = " ++ username
              ++ "\npassword = " ++ p ++ "\n") := by
  obtain ⟨built, stored, hbuilt, hstored, hr⟩ :=
    createIronicSecret_absent env ns name username configSection cfg w w1 w2 w3
      existing err p h hget hnf hpw hhash hlen hset
  have hw := absent_path_worlds env ns name w w1 w2 w3 existing err p h hget hpw hhash
  refine ⟨built, stored, hr, ?_, ?_, ?_, ?_, ?_, ?_, ?_, ?_⟩
  · rw [hr]
    simp [callsSince, Create_trace, hw, World.log]
  · simp [hstored, hbuilt]
  · simp [hstored, hbuilt]
  · simp [hstored]
  · simp [hstored, hbuilt, ironicHtpasswdKey, ironicUsernameKey, ironicPasswordKey,
      ironicConfigKey]
  · simp [hstored, hbuilt, List.lookup, ironicHtpasswdKey, ironicUsernameKey,
      ironicPasswordKey, ironicConfigKey]
  · simp [hstored, hbuilt, List.lookup, ironicHtpasswdKey, ironicUsernameKey,
      ironicPasswordKey, ironicConfigKey]
  · simp [hstored, hbuilt, List.lookup, ironicHtpasswdKey, ironicUsernameKey,
      ironicPasswordKey, ironicConfigKey]

/-- Witness for C6 at username `ironic-user`, generated password `abc123`
and section `ironic`, on an empty store. -/
theorem ironic_secret_created_witness :
    IsNotFound (Get sampleEnv "openshift-machine-api" ironicSecretName emptyWorld).2.1 = true
    ∧ generateRandomPassword sampleEnv
        { store := [], trace := [Event.get "openshift-machine-api" ironicSecretName] }
      = ("abc123", none,
          { store := [],
            trace := [Event.get "openshift-machine-api" ironicSecretName,
                      Event.generateRandomPassword] })
    ∧ ∃ built stored : Secret,
        callsSince emptyWorld (createIronicSecret sampleEnv "openshift-machine-api"
            ironicSecretName "ironic-user" "ironic" sampleConfig emptyWorld).2
          = [Event.get "openshift-machine-api" ironicSecretName, Event.generateRandomPassword,
             Event.bcryptGenerateFromPassword "abc123" 5,
             Event.setControllerReference sampleConfig built,
             Event.create "openshift-machine-api" stored]
        ∧ stored.Name = "metal3-ironic-password"
        ∧ stored.OwnerReferences = [controllerRef sampleConfig]
        ∧ stored.StringData.lookup "auth-config"
            = some "[ironic]\nauth_type = http_basic\nusername = ironic-user\npassword = abc123\n" :=
  ⟨by decide, by decide,
    let ⟨built, stored, _, hcalls, hname, _, howner, _, _, _, hconfig⟩ :=
      ironic_secret_created sampleEnv "openshift-machine-api" ironicSecretName "ironic-user"
        "ironic" sampleConfig emptyWorld
        { store := [], trace := [Event.get "openshift-machine-api" ironicSecretName] }
        { store := [],
          trace := [Event.get "openshift-machine-api" ironicSecretName,
                    Event.generateRandomPassword] }
        { store := [],
          trace := [Event.get "openshift-machine-api" ironicSecretName,
                    Event.generateRandomPassword,
                    Event.bcryptGenerateFromPassword "abc123" 5] }
        emptySecret (some (notFoundError ironicSecretName)) "abc123"
        ['$', '2', 'a', '$', '0', '5', '$', 's', 'a', 'l', 't']
        (by decide) (by decide) (by decide) (by decide) (by decide) (fun _ => rfl)
    ⟨built, stored, hcalls, hname, howner, hconfig⟩⟩

/-! ## Bulk operations -/

/-- C7: `DeleteAllSecrets` calls Delete once for each of the four credential
secret names, in the order Mariadb, Ironic, Inspector, Ironic RPC, whatever
the earlier deletions returned, and never for the TLS secret; it returns nil
exactly when every deletion returned nil or NotFound, and otherwise the
aggregate of the other errors in the order of the deletions. -/
theorem delete_all_aggregates (env : Env) (info : ProvisioningInfo) (w : World) :
    let d1 := Delete env info.Namespace "metal3-mariadb-password" w
    let d2 := Delete env info.Namespace "metal3-ironic-password" d1.2
    let d3 := Delete env info.Namespace "metal3-ironic-inspector-password" d2.2
    let d4 := Delete env info.Namespace "metal3-ironic-rpc-password" d3.2
    let failures := ([d1.1, d2.1, d3.1, d4.1].reduceOption).filter (fun e => !e.isNotFound)
    let r := DeleteAllSecrets env info w
    r.2 = d4.2
    ∧ callsSince w r.2 =
        [Event.delete info.Namespace "metal3-mariadb-password",
         Event.delete info.Namespace "metal3-ironic-password",
         Event.delete info.Namespace "metal3-ironic-inspector-password",
         Event.delete info.Namespace "metal3-ironic-rpc-password"]
    ∧ (∀ ns, Event.delete ns "metal3-ironic-tls" ∉ callsSince w r.2)
    ∧ (r.1 = none ↔ ∀ d ∈ [d1.1, d2.1, d3.1, d4.1], d = none ∨ IsNotFound d = true)
    ∧ (r.1 ≠ none → r.1 = some { errors := failures }) := by
  intro d1 d2 d3 d4 failures r
  have step : ∀ (es : List Error) (sn : String) (w0 : World),
      deleteSecret env info.Namespace (es, w0) sn
      = (es ++ ([(Delete env info.Namespace sn w0).1].reduceOption).filter
            (fun e => !e.isNotFound),
          (Delete env info.Namespace sn w0).2) := by
    intro es sn w0
    unfold deleteSecret
    rcases hd : Delete env info.Namespace sn w0 with ⟨err, w2⟩
    cases err with
    | none => simp [IgnoreNotFound, IsNotFound, List.reduceOption]
    | some e =>
      by_cases hnf : e.isNotFound = true
      · simp [IgnoreNotFound, IsNotFound, List.reduceOption, hnf]
      · simp [IgnoreNotFound, IsNotFound, List.reduceOption, hnf]
  have hr : r = (NewAggregate failures, d4.2) := by
    simp only [r, DeleteAllSecrets, List.foldl, step, baremetalSecretName, ironicSecretName,
      inspectorSecretName, ironicrpcSecretName]
    simp only [failures, d1, d2, d3, d4, List.nil_append]
    generalize (Delete env info.Namespace "metal3-mariadb-password" w).1 = a
    generalize (Delete env info.Namespace "metal3-ironic-password" _).1 = b
    generalize (Delete env info.Namespace "metal3-ironic-inspector-password" _).1 = c
    generalize (Delete env info.Namespace "metal3-ironic-rpc-password" _).1 = d
    have hsplit : [a, b, c, d] = [a] ++ ([b] ++ ([c] ++ [d])) := rfl
    rw [hsplit]
    simp only [List.reduceOption_append, List.filter_append, List.append_assoc]
  have hfail : failures = [] ↔ ∀ d ∈ [d1.1, d2.1, d3.1, d4.1], d = none ∨ IsNotFound d = true := by
    simp only [failures]
    rcases d1.1 with _ | e1 <;> rcases d2.1 with _ | e2 <;> rcases d3.1 with _ | e3 <;>
      rcases d4.1 with _ | e4 <;>
      simp [List.reduceOption, IsNotFound, List.filter_eq_nil_iff]
  refine ⟨by rw [hr], ?_, ?_, ?_, ?_⟩
  · rw [hr]
    simp [callsSince, d4, d3, d2, d1, Delete_trace]
  · rw [hr]
    simp [callsSince, d4, d3, d2, d1, Delete_trace]
  · rw [hr, ← hfail]
    simp [NewAggregate]
  · rw [hr]
    simp only [NewAggregate]
    split <;> simp

/-- Witness for C7 with two of the four deletions failing: the second store
call with a connection error, the fourth with a permission error. -/
theorem delete_all_aggregates_witness :
    (DeleteAllSecrets faultyEnv { Namespace := "openshift-machine-api" } emptyWorld).1
      = some { errors := [Error.other "connection refused",
                          Error.status StatusReason.forbidden "forbidden"] } :=
  ((delete_all_aggregates faultyEnv { Namespace := "openshift-machine-api" } emptyWorld).2.2.2.2
    (by decide))

/-- C8: `CreateAllSecrets` runs the five stages in the order Mariadb
password, Ironic password, Ironic RPC password, Inspector password, TLS,
each in the world the previous one left; it returns nil exactly when all
five return nil; and when a stage is the first to return an error, the
result is that error wrapped with the message of the stage, in the world
that stage left, so that no later stage makes any call. -/
theorem create_all_fail_fast (env : Env) (ns : String) (cfg : Provisioning) (w : World) :
    let s1 := createMariadbPasswordSecret env ns cfg w
    let s2 := createIronicSecret env ns "metal3-ironic-password" "ironic-user" "ironic" cfg s1.2
    let s3 := createIronicSecret env ns "metal3-ironic-rpc-password" "rpc-user" "json_rpc" cfg s2.2
    let s4 := createIronicSecret env ns "metal3-ironic-inspector-password" "inspector-user"
      "inspector" cfg s3.2
    let s5 := CreateOrUpdateTlsSecret env ns cfg s4.2
    let r := CreateAllSecrets env ns cfg w
    (r.1 = .returned none ↔
      s1.1 = .returned none ∧ s2.1 = .returned none ∧ s3.1 = .returned none
        ∧ s4.1 = .returned none ∧ s5.1 = .returned none)
    ∧ (r.1 = .returned none → r.2 = s5.2)
    ∧ (∀ e, s1.1 = .returned (some e) →
        r = (.returned (some (Error.wrap e "failed to create Mariadb password")), s1.2))
    ∧ (∀ e, s1.1 = .returned none → s2.1 = .returned (some e) →
        r = (.returned (some (Error.wrap e "failed to create Ironic password")), s2.2))
    ∧ (∀ e, s1.1 = .returned none → s2.1 = .returned none → s3.1 = .returned (some e) →
        r = (.returned (some (Error.wrap e "failed to create Ironic rpc password")), s3.2))
    ∧ (∀ e, s1.1 = .returned none → s2.1 = .returned none → s3.1 = .returned none →
        s4.1 = .returned (some e) →
        r = (.returned (some (Error.wrap e "failed to create Inspector password")), s4.2))
    ∧ (∀ e, s1.1 = .returned none → s2.1 = .returned none → s3.1 = .returned none →
        s4.1 = .returned none → s5.1 = .returned (some e) →
        r = (.returned (some (Error.wrap e "failed to create TLS certificate")), s5.2)) := by
  intro s1 s2 s3 s4 s5 r
  have hr : r = stage s1 "failed to create Mariadb password" fun _ =>
      stage s2 "failed to create Ironic password" fun _ =>
      stage s3 "failed to create Ironic rpc password" fun _ =>
      stage s4 "failed to create Inspector password" fun _ =>
      stage s5 "failed to create TLS certificate" fun _ => (.returned none, s5.2) := by
    simp only [r, s1, s2, s3, s4, s5, CreateAllSecrets, ironicSecretName, ironicUsername,
      ironicrpcSecretName, ironicrpcUsername, inspectorSecretName, inspectorUsername]
    rcases h1 : createMariadbPasswordSecret env ns cfg w with ⟨o1, w1⟩
    rcases o1 with (_ | e1) | m1 <;> simp only [stage]
    rcases h2 : createIronicSecret env ns "metal3-ironic-password" "ironic-user" "ironic" cfg w1
      with ⟨o2, w2⟩
    rcases o2 with (_ | e2) | m2 <;> simp only [stage]
    rcases h3 : createIronicSecret env ns "metal3-ironic-rpc-password" "rpc-user" "json_rpc"
      cfg w2 with ⟨o3, w3⟩
    rcases o3 with (_ | e3) | m3 <;> simp only [stage]
    rcases h4 : createIronicSecret env ns "metal3-ironic-inspector-password" "inspector-user"
      "inspector" cfg w3 with ⟨o4, w4⟩
    rcases o4 with (_ | e4) | m4 <;> simp only [stage]
    rcases h5 : CreateOrUpdateTlsSecret env ns cfg w4 with ⟨o5, w5⟩
    rcases o5 with (_ | e5) | m5 <;> simp only [stage]
  rw [hr]
  generalize s1 = t1
  generalize s2 = t2
  generalize s3 = t3
  generalize s4 = t4
  generalize s5 = t5
  rcases t1 with ⟨(_ | e1) | m1, w1⟩ <;> rcases t2 with ⟨(_ | e2) | m2, w2⟩ <;>
    rcases t3 with ⟨(_ | e3) | m3, w3⟩ <;> rcases t4 with ⟨(_ | e4) | m4, w4⟩ <;>
    rcases t5 with ⟨(_ | e5) | m5, w5⟩ <;> simp [stage, Wrap]

/-- Witness for C8 with the Create of the Mariadb stage failing: the result
is that error wrapped with the message of the first stage, in the world the
first stage left. -/
theorem create_all_fail_fast_witness :
    CreateAllSecrets faultyEnv "openshift-machine-api" sampleConfig emptyWorld
      = (.returned (some (Error.wrap (Error.status StatusReason.forbidden "forbidden")
            "failed to create Mariadb password")),
          (createMariadbPasswordSecret faultyEnv "openshift-machine-api" sampleConfig
            emptyWorld).2) :=
  (create_all_fail_fast faultyEnv "openshift-machine-api" sampleConfig emptyWorld).2.2.1
    (Error.status StatusReason.forbidden "forbidden") (by decide)

/-! ## Creating all secrets on a store that has none of them -/

theorem findSecret_append_ne (ns name : String) (store : List Secret) (s : Secret)
    (h : findSecret ns name store = none) (hne : s.Name ≠ name) :
    findSecret ns name (store ++ [s]) = none := by
  unfold findSecret at h ⊢
  rw [List.find?_append, h]
  simp [hne]

theorem createMariadbPasswordSecret_fresh (env : Env) (ns : String) (cfg : Provisioning)
    (w : World)
    (hstore : ∀ t ev, env.storeFault t ev = none)
    (hbind : ∀ t o s, env.setRefFault t o s = none)
    (hpw : ∀ t, ∃ p, env.randomPassword t = .ok p)
    (habs : findSecret ns baremetalSecretName w.store = none) :
    ∃ (s : Secret) (pre : List Event),
      createMariadbPasswordSecret env ns cfg w
        = (.returned none,
            { store := w.store ++ [s], trace := w.trace ++ (pre ++ [Event.create ns s]) })
      ∧ pre.filter Event.isMutation = []
      ∧ s.Name = baremetalSecretName ∧ s.Namespace = ns
      ∧ s.OwnerReferences = [controllerRef cfg] := by
  obtain ⟨p, hp⟩ := hpw (w.trace.length + 1)
  refine ⟨{ Name := baremetalSecretName, Namespace := ns,
            OwnerReferences := [controllerRef cfg],
            StringData := [(baremetalSecretKey, p)] },
          [Event.get ns baremetalSecretName, Event.generateRandomPassword,
           Event.setControllerReference cfg
             { Name := baremetalSecretName, Namespace := ns, OwnerReferences := [],
               StringData := [(baremetalSecretKey, p)] }], ?_, ?_, rfl, rfl, rfl⟩
  · simp [createMariadbPasswordSecret, Get, hstore, habs, IsNotFound, notFoundError,
      Error.isNotFound, generateRandomPassword, World.log, hp, SetControllerReference, hbind,
      upsertOwnerRef, Create]
  · simp [Event.isMutation, Event.isCreate, Event.isUpdate, Event.isDelete]

theorem createIronicSecret_fresh (env : Env) (ns name username configSection : String)
    (cfg : Provisioning) (w : World)
    (hstore : ∀ t ev, env.storeFault t ev = none)
    (hbind : ∀ t o s, env.setRefFault t o s = none)
    (hpw : ∀ t, ∃ p, env.randomPassword t = .ok p)
    (hhash : ∀ t p, ∃ h, env.bcrypt t p 5 = .ok h ∧ 3 ≤ h.length)
    (habs : findSecret ns name w.store = none) :
    ∃ (s : Secret) (pre : List Event),
      createIronicSecret env ns name username configSection cfg w
        = (.returned none,
            { store := w.store ++ [s], trace := w.trace ++ (pre ++ [Event.create ns s]) })
      ∧ pre.filter Event.isMutation = []
      ∧ s.Name = name ∧ s.Namespace = ns
      ∧ s.OwnerReferences = [controllerRef cfg] := by
  obtain ⟨p, hp⟩ := hpw (w.trace.length + 1)
  obtain ⟨h, hh, hlen⟩ := hhash (w.trace.length + 2) p
  have hl : ¬ h.length ≤ 2 := by omega
  refine ⟨{ Name := name, Namespace := ns, OwnerReferences := [controllerRef cfg],
            StringData :=
              [ (ironicUsernameKey, username),
                (ironicPasswordKey, p),
                (ironicHtpasswdKey, username ++ ":" ++ String.mk (h.set 2 'y')),
                (ironicConfigKey,
                  "[" ++ configSection ++ "]\nauth_type = http_basic\nusername = " ++ username
                    ++ "\npassword = " ++ p ++ "\n") ] },
          [Event.get ns name, Event.generateRandomPassword,
           Event.bcryptGenerateFromPassword p 5,
           Event.setControllerReference cfg
             { Name := name, Namespace := ns, OwnerReferences := [],
               StringData :=
                 [ (ironicUsernameKey, username),
                   (ironicPasswordKey, p),
                   (ironicHtpasswdKey, username ++ ":" ++ String.mk (h.set 2 'y')),
                   (ironicConfigKey,
                     "[" ++ configSection ++ "]\nauth_type = http_basic\nusername = " ++ username
                       ++ "\npassword = " ++ p ++ "\n") ] }], ?_, ?_, rfl, rfl, rfl⟩
  · simp [createIronicSecret, Get, hstore, habs, IsNotFound, notFoundError,
      Error.isNotFound, generateRandomPassword, World.log, hp, GenerateFromPassword, hh, hl,
      SetControllerReference, hbind, upsertOwnerRef, Create]
  · simp [Event.isMutation, Event.isCreate, Event.isUpdate, Event.isDelete]

theorem CreateOrUpdateTlsSecret_fresh (env : Env) (ns : String) (cfg : Provisioning)
    (w : World)
    (hstore : ∀ t ev, env.storeFault t ev = none)
    (hbind : ∀ t o s, env.setRefFault t o s = none)
    (hcert : ∀ t, ∃ c, env.tlsCertificate t cfg.Spec.ProvisioningIP = .ok c)
    (habs : findSecret ns tlsSecretName w.store = none) :
    ∃ (s : Secret) (pre : List Event),
      CreateOrUpdateTlsSecret env ns cfg w
        = (.returned none,
            { store := w.store ++ [s], trace := w.trace ++ (pre ++ [Event.create ns s]) })
      ∧ pre.filter Event.isMutation = []
      ∧ s.Name = tlsSecretName ∧ s.Namespace = ns
      ∧ s.OwnerReferences = [controllerRef cfg] := by
  obtain ⟨c, hc⟩ := hcert (w.trace.length + 1)
  refine ⟨{ Name := tlsSecretName, Namespace := ns, OwnerReferences := [controllerRef cfg],
            StringData := [(tlsCertificateKey, c.certificate), (tlsPrivateKeyKey, c.privateKey)] },
          [Event.get ns tlsSecretName, Event.generateTlsCertificate cfg.Spec.ProvisioningIP,
           Event.setControllerReference cfg
             { Name := tlsSecretName, Namespace := ns, OwnerReferences := [],
               StringData := [(tlsCertificateKey, c.certificate),
                              (tlsPrivateKeyKey, c.privateKey)] }], ?_, ?_, rfl, rfl, rfl⟩
  · simp [CreateOrUpdateTlsSecret, Get, hstore, habs, IsNotFound, notFoundError,
      Error.isNotFound, generateTlsCertificate, World.log, hc, SetControllerReference, hbind,
      upsertOwnerRef, Create]
  · simp [Event.isMutation, Event.isCreate, Event.isUpdate, Event.isDelete]

/-- C10: on a store that has none of the five secrets, with no store call
and no ownership-binder call failing and every generator succeeding (the
hash routine returning at least three bytes), `CreateAllSecrets` returns nil
and its store mutations are exactly five Create calls, one per name in the
order Mariadb, Ironic, Ironic RPC, Inspector, TLS; every created secret is
in the target namespace and has the controller reference to the
provisioning config as its only owner reference. -/
theorem create_all_on_empty_store (env : Env) (ns : String) (cfg : Provisioning) (w : World)
    (hstore : ∀ t ev, env.storeFault t ev = none)
    (hbind : ∀ t o s, env.setRefFault t o s = none)
    (hpw : ∀ t, ∃ p, env.randomPassword t = .ok p)
    (hhash : ∀ t p, ∃ h, env.bcrypt t p 5 = .ok h ∧ 3 ≤ h.length)
    (hcert : ∀ t, ∃ c, env.tlsCertificate t cfg.Spec.ProvisioningIP = .ok c)
    (habsent : ∀ n ∈ ["metal3-mariadb-password", "metal3-ironic-password",
        "metal3-ironic-rpc-password", "metal3-ironic-inspector-password", "metal3-ironic-tls"],
      findSecret ns n w.store = none) :
    ∃ s1 s2 s3 s4 s5 : Secret,
      (CreateAllSecrets env ns cfg w).1 = .returned none
      ∧ (callsSince w (CreateAllSecrets env ns cfg w).2).filter Event.isMutation
          = [Event.create ns s1, Event.create ns s2, Event.create ns s3, Event.create ns s4,
             Event.create ns s5]
      ∧ [s1, s2, s3, s4, s5].map Secret.Name
          = ["metal3-mariadb-password", "metal3-ironic-password", "metal3-ironic-rpc-password",
             "metal3-ironic-inspector-password", "metal3-ironic-tls"]
      ∧ (∀ s ∈ [s1, s2, s3, s4, s5],
          s.Namespace = ns ∧ s.OwnerReferences = [controllerRef cfg])
      ∧ (CreateAllSecrets env ns cfg w).2.store = w.store ++ [s1, s2, s3, s4, s5] := by
  have a1 : findSecret ns baremetalSecretName w.store = none := habsent _ (by simp [baremetalSecretName])
  have a2 : findSecret ns ironicSecretName w.store = none := habsent _ (by simp [ironicSecretName])
  have a3 : findSecret ns ironicrpcSecretName w.store = none :=
    habsent _ (by simp [ironicrpcSecretName])
  have a4 : findSecret ns inspectorSecretName w.store = none :=
    habsent _ (by simp [inspectorSecretName])
  have a5 : findSecret ns tlsSecretName w.store = none := habsent _ (by simp [tlsSecretName])
  obtain ⟨s1, pre1, e1, f1, n1, ns1, o1⟩ :=
    createMariadbPasswordSecret_fresh env ns cfg w hstore hbind hpw a1
  have d12 : s1.Name ≠ ironicSecretName := by rw [n1]; decide
  have d13 : s1.Name ≠ ironicrpcSecretName := by rw [n1]; decide
  have d14 : s1.Name ≠ inspectorSecretName := by rw [n1]; decide
  have d15 : s1.Name ≠ tlsSecretName := by rw [n1]; decide
  obtain ⟨s2, pre2, e2, f2, n2, ns2, o2⟩ :=
    createIronicSecret_fresh env ns ironicSecretName ironicUsername "ironic" cfg
      { store := w.store ++ [s1], trace := w.trace ++ (pre1 ++ [Event.create ns s1]) }
      hstore hbind hpw hhash (findSecret_append_ne _ _ _ _ a2 d12)
  have d23 : s2.Name ≠ ironicrpcSecretName := by rw [n2]; decide
  have d24 : s2.Name ≠ inspectorSecretName := by rw [n2]; decide
  have d25 : s2.Name ≠ tlsSecretName := by rw [n2]; decide
  obtain ⟨s3, pre3, e3, f3, n3, ns3, o3⟩ :=
    createIronicSecret_fresh env ns ironicrpcSecretName ironicrpcUsername "json_rpc" cfg
      { store := w.store ++ [s1] ++ [s2],
        trace := w.trace ++ (pre1 ++ [Event.create ns s1]) ++ (pre2 ++ [Event.create ns s2]) }
      hstore hbind hpw hhash
      (findSecret_append_ne _ _ _ _ (findSecret_append_ne _ _ _ _ a3 d13) d23)
  have d34 : s3.Name ≠ inspectorSecretName := by rw [n3]; decide
  have d35 : s3.Name ≠ tlsSecretName := by rw [n3]; decide
  obtain ⟨s4, pre4, e4, f4, n4, ns4, o4⟩ :=
    createIronicSecret_fresh env ns inspectorSecretName inspectorUsername "inspector" cfg
      { store := w.store ++ [s1] ++ [s2] ++ [s3],
        trace := w.trace ++ (pre1 ++ [Event.create ns s1]) ++ (pre2 ++ [Event.create ns s2])
          ++ (pre3 ++ [Event.create ns s3]) }
      hstore hbind hpw hhash
      (findSecret_append_ne _ _ _ _
        (findSecret_append_ne _ _ _ _ (findSecret_append_ne _ _ _ _ a4 d14) d24) d34)
  have d45 : s4.Name ≠ tlsSecretName := by rw [n4]; decide
  obtain ⟨s5, pre5, e5, f5, n5, ns5, o5⟩ :=
    CreateOrUpdateTlsSecret_fresh env ns cfg
      { store := w.store ++ [s1] ++ [s2] ++ [s3] ++ [s4],
        trace := w.trace ++ (pre1 ++ [Event.create ns s1]) ++ (pre2 ++ [Event.create ns s2])
          ++ (pre3 ++ [Event.create ns s3]) ++ (pre4 ++ [Event.create ns s4]) }
      hstore hbind hcert
      (findSecret_append_ne _ _ _ _
        (findSecret_append_ne _ _ _ _
          (findSecret_append_ne _ _ _ _ (findSecret_append_ne _ _ _ _ a5 d15) d25) d35) d45)
  have hr : CreateAllSecrets env ns cfg w
      = (.returned none,
          { store := w.store ++ [s1] ++ [s2] ++ [s3] ++ [s4] ++ [s5],
            trace := w.trace ++ (pre1 ++ [Event.create ns s1]) ++ (pre2 ++ [Event.create ns s2])
              ++ (pre3 ++ [Event.create ns s3]) ++ (pre4 ++ [Event.create ns s4])
              ++ (pre5 ++ [Event.create ns s5]) }) := by
    simp only [CreateAllSecrets, stage, e1, e2, e3, e4, e5]
  refine ⟨s1, s2, s3, s4, s5, by rw [hr], ?_, ?_, ?_, ?_⟩
  · rw [hr]
    simp [callsSince, List.filter_append, f1, f2, f3, f4, f5, Event.isMutation, Event.isCreate]
  · simp [n1, n2, n3, n4, n5, baremetalSecretName, ironicSecretName, ironicrpcSecretName,
      inspectorSecretName, tlsSecretName]
  · simp [ns1, ns2, ns3, ns4, ns5, o1, o2, o3, o4, o5]
  · rw [hr]
    simp

/-- Witness for C10 on the empty store with collaborators that all succeed. -/
theorem create_all_on_empty_store_witness :
    (∀ n ∈ ["metal3-mariadb-password", "metal3-ironic-password",
        "metal3-ironic-rpc-password", "metal3-ironic-inspector-password", "metal3-ironic-tls"],
      findSecret "openshift-machine-api" n emptyWorld.store = none)
    ∧ ∃ s1 s2 s3 s4 s5 : Secret,
        (CreateAllSecrets sampleEnv "openshift-machine-api" sampleConfig emptyWorld).1
          = .returned none
        ∧ (CreateAllSecrets sampleEnv "openshift-machine-api" sampleConfig emptyWorld).2.store
          = emptyWorld.store ++ [s1, s2, s3, s4, s5] :=
  ⟨fun _ _ => rfl,
    let ⟨s1, s2, s3, s4, s5, hret, _, _, _, hstore⟩ :=
      create_all_on_empty_store sampleEnv "openshift-machine-api" sampleConfig emptyWorld
        (fun _ _ => rfl) (fun _ _ _ => rfl) (fun _ => ⟨"abc123", rfl⟩)
        (fun _ _ => ⟨['$', '2', 'a', '$', '0', '5', '$', 's', 'a', 'l', 't'], rfl, by decide⟩)
        (fun _ => ⟨{ privateKey := "new-key", certificate := "new-cert" }, rfl⟩)
        (fun _ _ => rfl)
    ⟨s1, s2, s3, s4, s5, hret, hstore⟩⟩

end BaremetalSecrets
